import Mathlib

/-!
Verification development for the mcp_demo repository: a shallow embedding of
the tool functions of `1_basic_agent.py`, `math_server.py`, `weather_server.py`,
the interactive chat loops of `1_basic_agent.py` / `2_agent_with_mcp.py`, and
the log writer of `3_weather_agent_mcp.py`.

Python floats are idealised as exact rationals (`Rat`); Python exceptions are
modelled with `Except`/`Option`; the network (NWS HTTP API, LLM service) is
modelled as an explicit environment parameter.
-/

/-! ## Python primitives used by the scripts -/

/-- Model of Python `str.lower()` (ASCII letters, the only ones appearing in
the scripts' data): lowercase every character. -/
def pyLower (s : String) : String :=
  String.mk (s.data.map Char.toLower)

/-- Model of Python `str.strip()` for a default (whitespace) argument:
drop whitespace from both ends. (Python strips a slightly larger whitespace
set than `Char.isWhitespace`; the difference is immaterial here.) -/
def pyStrip (s : String) : String :=
  String.mk (((s.data.dropWhile Char.isWhitespace).reverse.dropWhile Char.isWhitespace).reverse)

/-- Auxiliary for `pySplitOn`: split a character list at a separator character,
accumulating the current piece in reverse. -/
def pySplitOnAux (sep : Char) : List Char → List Char → List String
  | [], acc => [String.mk acc.reverse]
  | c :: cs, acc =>
    if c = sep then String.mk acc.reverse :: pySplitOnAux sep cs []
    else pySplitOnAux sep cs (c :: acc)

/-- Model of Python `str.split(sep)` for a single-character separator `sep`:
`"".split(',') = ['']`, `"a,,b".split(',') = ['a','','b']`. -/
def pySplitOn (sep : Char) (s : String) : List String :=
  pySplitOnAux sep s.data []

/-- Value of a list of decimal digit characters. -/
def digitsToNat (ds : List Char) : Nat :=
  ds.foldl (fun acc c => 10 * acc + (c.toNat - 48)) 0

/-- Exponent part of a Python float literal: optional sign then one or more
digits, consuming the whole remaining input; the value is the power of ten. -/
def pyFloatExp (cs : List Char) : Option Rat :=
  let (neg, cs1) :=
    match cs with
    | '+' :: rest => (false, rest)
    | '-' :: rest => (true, rest)
    | rest => (false, rest)
  let ds := cs1.takeWhile Char.isDigit
  let rest := cs1.dropWhile Char.isDigit
  if ds.isEmpty ∨ ¬rest.isEmpty then none
  else if neg then some (((10 : Rat) ^ digitsToNat ds)⁻¹)
  else some ((10 : Rat) ^ digitsToNat ds)

/-- Mantissa-and-exponent part of a Python float literal (after the sign):
digits, an optional fraction introduced by a dot (at least one digit must be
present overall), and an optional `e`/`E` exponent. -/
def pyFloatBody (cs : List Char) : Option Rat :=
  let intPart := cs.takeWhile Char.isDigit
  let cs1 := cs.dropWhile Char.isDigit
  match cs1 with
  | [] => if intPart.isEmpty then none else some (digitsToNat intPart)
  | '.' :: rest =>
    let fracPart := rest.takeWhile Char.isDigit
    let rest1 := rest.dropWhile Char.isDigit
    if intPart.isEmpty ∧ fracPart.isEmpty then none
    else
      let mant : Rat :=
        (digitsToNat intPart : Rat) + (digitsToNat fracPart : Rat) / ((10 : Rat) ^ fracPart.length)
      match rest1 with
      | [] => some mant
      | e :: rest2 =>
        if e = 'e' ∨ e = 'E' then (pyFloatExp rest2).map (fun ex => mant * ex) else none
  | e :: rest2 =>
    if (e = 'e' ∨ e = 'E') ∧ ¬intPart.isEmpty then
      (pyFloatExp rest2).map (fun ex => (digitsToNat intPart : Rat) * ex)
    else none

/-- Model of Python `float(s)` on decimal literals: optional sign, digits with
an optional fraction and exponent; a `ValueError` is modelled as `none`.
(`inf`/`nan`/underscores/surrounding whitespace are not modelled; no claim
depends on them.) In particular `pyFloat "" = none`, matching the
`ValueError` that `float('')` raises. -/
def pyFloat (s : String) : Option Rat :=
  match s.data with
  | '+' :: rest => pyFloatBody rest
  | '-' :: rest => (pyFloatBody rest).map Neg.neg
  | cs => pyFloatBody cs

/-- Model of Python `str(x)` for a float `x` whose value is an integer:
Python prints a trailing `.0` (`str(42.0) = "42.0"`). Non-integral floats
print a decimal expansion whose shortest-roundtrip form is not modelled;
no claim inspects that branch, which falls back to `toString`. -/
def pyFloatStr (q : Rat) : String :=
  if q.den = 1 then toString q.num ++ ".0" else toString q

/-- Model of Python truthiness for an optional string (`if d.get(k):`):
`None` and the empty string are falsy. -/
def pyTruthy (o : Option String) : Bool :=
  o.getD "" ≠ ""

/-- Model of the Python slice `s[:n]` on a string. -/
def pyTake (n : Nat) (s : String) : String :=
  String.mk (s.data.take n)

/-- Auxiliary for `pyTitle`: the Boolean records whether the previous
character was alphabetic. -/
def pyTitleAux : Bool → List Char → List Char
  | _, [] => []
  | prevAlpha, c :: cs =>
    if c.isAlpha then
      (if prevAlpha then c.toLower else c.toUpper) :: pyTitleAux true cs
    else c :: pyTitleAux false cs

/-- Model of Python `str.title()` (ASCII letters): the first letter of each
alphabetic run is uppercased, the rest lowercased. -/
def pyTitle (s : String) : String :=
  String.mk (pyTitleAux false s.data)

/-- Model of the Python expression `s * n` for a string `s` and count `n`. -/
def strRepeat (s : String) (n : Nat) : String :=
  String.join (List.replicate n s)

/-- Result value of a Python function declared to return `float` but which may
also return an error message string (as `math_server.py`'s tools do). -/
inductive PyVal where
  | num (q : Rat)
  | str (s : String)
deriving DecidableEq, Repr

/-! ## `math_server.py` -/

namespace MathServer

/-- Embedding of `add` from `math_server.py`. -/
def add (a b : Rat) : Rat := a + b

/-- Embedding of `multiply` from `math_server.py`. -/
def multiply (a b : Rat) : Rat := a * b

/-- Embedding of `subtract` from `math_server.py`. -/
def subtract (a b : Rat) : Rat := a - b

/-- Embedding of `divide` from `math_server.py`: the zero divisor is checked
and answered with an error string instead of raising. -/
def divide (a b : Rat) : PyVal :=
  if b = 0 then .str "Error: Cannot divide by zero" else .num (a / b)

/-- Embedding of `power` from `math_server.py`. The body `base ** exponent`
has no `try`/`except`: Python raises `ZeroDivisionError` when the base is zero
and the exponent negative, which the embedding surfaces as `Except.error`.
For an integral exponent the value is the exact rational power; a non-integral
exponent yields an irrational or complex float, which `Rat` cannot represent —
that branch returns `.ok (.num 0)` as a placeholder and no claim inspects it. -/
def power (base exponent : Rat) : Except String PyVal :=
  if base = 0 ∧ exponent < 0 then
    .error "ZeroDivisionError: 0.0 cannot be raised to a negative power"
  else if exponent.den = 1 then
    .ok (.num (base ^ exponent.num))
  else
    .ok (.num 0)

/-- Embedding of the parsing loop of `calculate_average` from `math_server.py`:
`[float(x.strip()) for x in numbers.split(',')]`, evaluated left to right,
with the first `ValueError` aborting the whole comprehension. -/
def parseEntries : List String → Option (List Rat)
  | [] => some []
  | x :: xs =>
    match pyFloat (pyStrip x), parseEntries xs with
    | some v, some vs => some (v :: vs)
    | _, _ => none

/-- Embedding of `calculate_average` from `math_server.py`. -/
def calculate_average (numbers : String) : PyVal :=
  match parseEntries (pySplitOn ',' numbers) with
  | none => .str "Error: Invalid number format. Use comma-separated numbers like '1,2,3,4'"
  | some num_list =>
    if num_list.isEmpty then .str "Error: No numbers provided"
    else .num (num_list.sum / (num_list.length : Rat))

end MathServer

/-! ## Shapes of the NWS API JSON responses used by the weather tools -/

/-- Fields of the `properties` object of a `/points/{lat},{lon}` response that
the scripts read. -/
structure PointsProps where
  forecast : String
  gridId : String
  gridX : Int
  gridY : Int
  observationStations : String
deriving DecidableEq, Repr

/-- One element of `properties.periods` of a forecast response. -/
structure ForecastPeriod where
  name : String
  temperature : Int
  temperatureUnit : String
  shortForecast : String
  detailedForecast : String
deriving DecidableEq, Repr

/-- The `properties.periods` list of a forecast response. -/
structure ForecastProps where
  periods : List ForecastPeriod
deriving DecidableEq, Repr

/-- The `properties` object of one alert feature; each field is read with
`props.get(key, default)` or guarded by truthiness, so all are optional. -/
structure AlertProps where
  event : Option String
  severity : Option String
  urgency : Option String
  areaDesc : Option String
  headline : Option String
  description : Option String
deriving DecidableEq, Repr

/-- One element of the `features` list of an active-alerts response. -/
structure Alert where
  properties : AlertProps
deriving DecidableEq, Repr

/-- An active-alerts response body; the code reads
`alerts_data.get('features', [])`, so the list is optional. -/
structure AlertsData where
  features : Option (List Alert)
deriving DecidableEq, Repr

/-! ## `1_basic_agent.py` -/

namespace BasicAgent

/-- Embedding of the `US_CITIES` dict of `1_basic_agent.py`, in insertion
order. -/
def US_CITIES : List (String × Rat × Rat) :=
  [("New York", 40.7128, -74.0060),
   ("Los Angeles", 34.0522, -118.2437),
   ("Chicago", 41.8781, -87.6298),
   ("Houston", 29.7604, -95.3698),
   ("Phoenix", 33.4484, -112.0740),
   ("Philadelphia", 39.9526, -75.1652),
   ("San Antonio", 29.4241, -98.4936),
   ("San Diego", 32.7157, -117.1611),
   ("Dallas", 32.7767, -96.7970),
   ("Denver", 39.7392, -104.9903)]

/-- Environment standing for `make_nws_request`, which catches every request
error and returns `None` (here `none`): a points lookup keyed by coordinates,
and a forecast fetch keyed by the forecast URL. Responses are assumed
well-shaped; a missing key in a delivered JSON body would raise `KeyError`
in the source, a case no claim here exercises. -/
structure NwsEnv where
  points : Rat → Rat → Option PointsProps
  forecastAt : String → Option ForecastProps

/-- Embedding of the body of `get_city_weather` of `1_basic_agent.py` after a
successful gazetteer lookup: the two-stage points/forecast query and the
formatting of the first three periods. The source's formatting strings contain
the two characters `\n` literally (the Python file writes `"\\n"`). -/
def fetchCityForecast (env : NwsEnv) (city_name : String) (lat lon : Rat) : String :=
  match env.points lat lon with
  | none => "Unable to fetch forecast data for " ++ city_name ++ "."
  | some points_data =>
    match env.forecastAt points_data.forecast with
    | none => "Unable to fetch detailed forecast for " ++ city_name ++ "."
    | some forecast_data =>
      let forecasts := (forecast_data.periods.take 3).map (fun p =>
        "  " ++ p.name ++ ": " ++ toString p.temperature ++ "°" ++ p.temperatureUnit
          ++ " - " ++ p.shortForecast)
      city_name ++ " Weather Forecast:\\n" ++ String.intercalate "\\n" forecasts

/-- Embedding of the `@tool get_city_weather` of `1_basic_agent.py`. Note the
membership test `city_name not in US_CITIES` is case-sensitive. -/
def get_city_weather (env : NwsEnv) (city_name : String) : String :=
  match US_CITIES.find? (fun c => c.1 == city_name) with
  | none =>
    "City '" ++ city_name ++ "' not found. Available cities: "
      ++ String.intercalate ", " (US_CITIES.map (fun c => c.1))
  | some c => fetchCityForecast env city_name c.2.1 c.2.2

/-- Embedding of the `@tool calculate` of `1_basic_agent.py`. Its `try` body
cannot raise on float inputs, so the `except` branch is unreachable and not
modelled. -/
def calculate (a b : Rat) (operation : String) : String :=
  if pyLower operation = "add" then
    pyFloatStr a ++ " + " ++ pyFloatStr b ++ " = " ++ pyFloatStr (a + b)
  else if pyLower operation = "subtract" then
    pyFloatStr a ++ " - " ++ pyFloatStr b ++ " = " ++ pyFloatStr (a - b)
  else if pyLower operation = "multiply" then
    pyFloatStr a ++ " × " ++ pyFloatStr b ++ " = " ++ pyFloatStr (a * b)
  else if pyLower operation = "divide" then
    if b = 0 then "Error: Cannot divide by zero"
    else pyFloatStr a ++ " ÷ " ++ pyFloatStr b ++ " = " ++ pyFloatStr (a / b)
  else
    "Unknown operation: " ++ operation ++ ". Use: add, subtract, multiply, divide"

/-- Embedding of the `city_info` dict of the `@tool get_city_info`. -/
def city_info : List (String × String) :=
  [("New York", "Population: ~8.3M, Known for: Times Square, Statue of Liberty"),
   ("Los Angeles", "Population: ~3.9M, Known for: Hollywood, Beaches"),
   ("Chicago", "Population: ~2.7M, Known for: Deep dish pizza, Architecture"),
   ("Houston", "Population: ~2.3M, Known for: Space Center, Oil industry"),
   ("Phoenix", "Population: ~1.6M, Known for: Desert, Sunshine"),
   ("Philadelphia", "Population: ~1.6M, Known for: Liberty Bell, Cheesesteaks"),
   ("San Antonio", "Population: ~1.5M, Known for: The Alamo, River Walk"),
   ("San Diego", "Population: ~1.4M, Known for: Zoo, Perfect weather"),
   ("Dallas", "Population: ~1.3M, Known for: Cowboys, BBQ"),
   ("Denver", "Population: ~715K, Known for: Mountains, Mile high city")]

/-- Embedding of the `@tool get_city_info` of `1_basic_agent.py`; the
membership test is case-sensitive, like `get_city_weather`'s. -/
def get_city_info (city_name : String) : String :=
  match city_info.find? (fun c => c.1 == city_name) with
  | some c => city_name ++ ": " ++ c.2
  | none =>
    "City '" ++ city_name ++ "' not found. Available cities: "
      ++ String.intercalate ", " (city_info.map (fun c => c.1))

end BasicAgent

/-! ## `weather_server.py` -/

namespace WeatherServer

/-- Environment standing for the `requests.get` calls of `weather_server.py`.
Each field returns either a well-shaped body or an error message standing for
the caught `requests.exceptions.RequestException`. -/
structure HttpEnv where
  points : Rat → Rat → Except String PointsProps
  forecastAt : String → Except String ForecastProps
  alerts : Rat → Rat → Except String AlertsData

/-- Embedding of `get_weather_forecast` from `weather_server.py` (the source
file renders the degree sign as the two characters `¬∞`, reproduced here). -/
def get_weather_forecast (env : HttpEnv) (latitude longitude : Rat)
    (location_name : String := "Location") : String :=
  match env.points latitude longitude with
  | .error e => "Error fetching weather data: " ++ e
  | .ok points_data =>
    match env.forecastAt points_data.forecast with
    | .error e => "Error fetching weather data: " ++ e
    | .ok forecast_data =>
      "Weather Forecast for " ++ location_name ++ "\n"
        ++ "Weather Office: " ++ points_data.gridId ++ ", Grid: ("
        ++ toString points_data.gridX ++ ", " ++ toString points_data.gridY ++ ")\n\n"
        ++ String.join ((forecast_data.periods.take 5).map (fun p =>
          p.name ++ ": " ++ toString p.temperature ++ "¬∞" ++ p.temperatureUnit ++ "\n"
            ++ "  Conditions: " ++ p.shortForecast ++ "\n"
            ++ "  Details: " ++ pyTake 150 p.detailedForecast ++ "...\n\n"))

/-- Embedding of the per-alert formatting block of `get_weather_alerts`. -/
def formatAlert (alert : Alert) : String :=
  let props := alert.properties
  "Alert: " ++ props.event.getD "Unknown" ++ "\n"
    ++ "Severity: " ++ props.severity.getD "Unknown" ++ "\n"
    ++ "Urgency: " ++ props.urgency.getD "Unknown" ++ "\n"
    ++ "Areas: " ++ String.intercalate ", " ((pySplitOn ';' (props.areaDesc.getD "")).take 3) ++ "\n"
    ++ (if pyTruthy props.headline then "Headline: " ++ props.headline.getD "" ++ "\n" else "")
    ++ (if pyTruthy props.description then
          "Description: " ++ pyTake 200 (props.description.getD "") ++ "...\n"
        else "")
    ++ "\n" ++ strRepeat "-" 30 ++ "\n\n"

/-- Embedding of `get_weather_alerts` from `weather_server.py`. -/
def get_weather_alerts (env : HttpEnv) (latitude longitude : Rat)
    (location_name : String := "Location") : String :=
  match env.alerts latitude longitude with
  | .error e => "Error getting weather alerts: " ++ e
  | .ok alerts_data =>
    let features := alerts_data.features.getD []
    if features.isEmpty then "No active weather alerts for " ++ location_name
    else
      "Active Weather Alerts for " ++ location_name ++ "\n" ++ strRepeat "=" 50 ++ "\n\n"
        ++ String.join ((features.take 5).map formatAlert)

/-- Embedding of the `cities` dict of `get_city_weather` in
`weather_server.py`, in insertion order; the keys are lowercase. -/
def cities : List (String × Rat × Rat) :=
  [("san francisco", 37.7749, -122.4194),
   ("new york", 40.7128, -74.0060),
   ("los angeles", 34.0522, -118.2437),
   ("chicago", 41.8781, -87.6298),
   ("houston", 29.7604, -95.3698),
   ("phoenix", 33.4484, -112.0740),
   ("philadelphia", 39.9526, -75.1652),
   ("san antonio", 29.4241, -98.4936),
   ("san diego", 32.7157, -117.1611),
   ("dallas", 32.7767, -96.7970),
   ("miami", 25.7617, -80.1918),
   ("atlanta", 33.7490, -84.3880),
   ("boston", 42.3601, -71.0589),
   ("seattle", 47.6062, -122.3321),
   ("denver", 39.7392, -104.9903)]

/-- Strict lexicographic order on character lists by code point, the order
Python `sorted` uses on strings. -/
def charListLt : List Char → List Char → Bool
  | [], [] => false
  | [], _ :: _ => true
  | _ :: _, [] => false
  | a :: as, b :: bs =>
    if a.toNat < b.toNat then true
    else if b.toNat < a.toNat then false
    else charListLt as bs

/-- Insertion of a string into a sorted list, for `sortStrings`. -/
def insertSorted (x : String) : List String → List String
  | [] => [x]
  | y :: ys => if charListLt y.data x.data then y :: insertSorted x ys else x :: y :: ys

/-- Model of Python `sorted` on a list of strings (both orders are
lexicographic by code point). -/
def sortStrings (l : List String) : List String :=
  l.foldr insertSorted []

/-- Embedding of `get_city_weather` from `weather_server.py`: the lookup is on
`city_name.lower()` against lowercase keys, hence case-insensitive; the
unknown-name message lists `sorted(cities.keys())`. -/
def get_city_weather (env : HttpEnv) (city_name : String) : String :=
  match cities.find? (fun c => c.1 == pyLower city_name) with
  | some c => get_weather_forecast env c.2.1 c.2.2 (pyTitle city_name)
  | none =>
    "City '" ++ city_name ++ "' not found. Available cities: "
      ++ String.intercalate ", " (sortStrings (cities.map (fun c => c.1)))

end WeatherServer

/-! ## The agent loop (spec §4.5)

The tool-calling loop itself lives in the external `create_react_agent`
framework invoked by `agent.ainvoke` in `1_basic_agent.py` and
`2_agent_with_mcp.py`, not in this repository's sources, so it is modelled
from the spec. -/

namespace AgentLoop

/-- Modelled from the spec: one requested tool invocation (`ToolInvocationRequest`),
a tool name with an argument mapping. -/
structure ToolCall where
  name : String
  arguments : List (String × String)

/-- Modelled from the spec: the LLM service's answer in the THINKING state is
either a final answer or a request to invoke one or more named tools. -/
inductive LlmDecision where
  | finalAnswer (text : String)
  | toolCalls (calls : List ToolCall)

/-- Modelled from the spec: one message of the `ConversationState`, tagged
with a role from `{user, assistant, tool}`. -/
inductive Msg where
  | user (content : String)
  | assistant (content : String)
  | tool (name : String) (content : String)

/-- Modelled from the spec: the Tool Registry, a mapping from tool name to
implementation. -/
def Registry := List (String × (List (String × String) → String))

/-- Modelled from the spec: the ACTING state resolves one requested call in
the registry; an unknown tool name produces a Failure result (no retry), and
the outcome is appended as a tool message. -/
def execCall (registry : Registry) (c : ToolCall) : Msg :=
  match List.find? (fun t => t.1 == c.name) registry with
  | none => .tool c.name ("Unknown tool: " ++ c.name)
  | some t => .tool c.name (t.2 c.arguments)

/-- Modelled from the spec: outcome of one user turn — a final answer, or
termination at the step cap. -/
inductive TurnResult where
  | answered (text : String) (conv : List Msg)
  | capReached (conv : List Msg)

/-- Modelled from the spec: the `THINKING → (ACTING → OBSERVING)* → RESPONDING`
loop of one user turn, bounded by the step cap the spec prescribes for the
tool-calling cycle. Each step asks the LLM; tool results are appended to the
conversation before the loop re-enters THINKING. -/
def runTurn (llm : List Msg → LlmDecision) (registry : Registry) :
    Nat → List Msg → TurnResult
  | 0, conv => .capReached conv
  | cap + 1, conv =>
    match llm conv with
    | .finalAnswer t => .answered t (conv ++ [Msg.assistant t])
    | .toolCalls calls => runTurn llm registry cap (conv ++ calls.map (execCall registry))

/-- Modelled from the spec: the number of LLM (THINKING) steps `runTurn`
performs from a given conversation. -/
def llmSteps (llm : List Msg → LlmDecision) (registry : Registry) :
    Nat → List Msg → Nat
  | 0, _ => 0
  | cap + 1, conv =>
    match llm conv with
    | .finalAnswer _ => 1
    | .toolCalls calls => 1 + llmSteps llm registry cap (conv ++ calls.map (execCall registry))

end AgentLoop

/-! ## The interactive chat loop of `1_basic_agent.py` -/

namespace Interactive

/-- Exit keywords of the interactive loops (`1_basic_agent.py` line 182,
`2_agent_with_mcp.py` line 87). -/
def EXIT_KEYWORDS : List String := ["quit", "exit", "bye", "q", "goodbye"]

/-- One iteration's outside stimulus: either a `KeyboardInterrupt` (during
`input()` or processing), or a line of user input together with the outcome
of processing it — `Except.error` stands for any exception `agent.ainvoke`
raises, `Except.ok` for the final response text it displays. -/
inductive TurnEvent where
  | interrupt
  | input (line : String) (result : Except String String)

/-- Whether the session loop goes on after an iteration. -/
inductive StepOutcome where
  | nextTurn
  | endSession
deriving DecidableEq, Repr

/-- Outcome and printed lines of one loop iteration. -/
structure StepResult where
  outcome : StepOutcome
  output : List String
deriving DecidableEq, Repr

/-- Embedding of one iteration of the `while True` body of
`interactive_agent_with_tools` in `1_basic_agent.py`: strip the input, break
on an exit keyword, re-prompt on empty input, otherwise process; the
`except Exception` clause turns any processing fault into a printed error and
continues, and `except KeyboardInterrupt` breaks. (The goodbye string contains
the two characters `\n` literally, as the source writes `"\\n👋 Goodbye!"`.) -/
def stepTurn : TurnEvent → StepResult
  | .interrupt => ⟨.endSession, ["\\n👋 Goodbye!"]⟩
  | .input line result =>
    let user_input := pyStrip line
    if EXIT_KEYWORDS.contains (pyLower user_input) then ⟨.endSession, ["👋 Goodbye!"]⟩
    else if user_input = "" then ⟨.nextTurn, []⟩
    else
      match result with
      | .ok response => ⟨.nextTurn, ["🤖 Agent: ", response]⟩
      | .error e => ⟨.nextTurn, ["🤖 Agent: ", "❌ Error: " ++ e]⟩

/-- The session loop over a (finite prefix of a) stream of events: `true`
when the loop reached `break` (exit keyword or interrupt), `false` when the
supplied events ran out with the loop still going. -/
def runSession : List TurnEvent → Bool
  | [] => false
  | e :: rest =>
    match (stepTurn e).outcome with
    | .endSession => true
    | .nextTurn => runSession rest

end Interactive

/-! ## Startup of the MCP client session (`2_agent_with_mcp.py`, spec §4.4)

The per-server connection logic lives in the external `MultiServerMCPClient`;
its all-or-nothing contract is modelled from the spec, while the surrounding
`try`/`except` and agent construction follow `interactive_chat`. -/

namespace McpClient

/-- Modelled from the spec: the outcome of one server connection attempted at
startup — its advertised tool names, or a connection failure. -/
inductive ConnResult where
  | connected (tools : List String)
  | failed (err : String)
deriving DecidableEq, Repr

/-- Modelled from the spec: the Remote Tool Client's scoped all-or-nothing
startup — merge the registries of all configured servers; any connection
failure aborts the whole acquisition with a diagnostic naming the unreachable
server. -/
def connectAll : List (String × ConnResult) → Except String (List String)
  | [] => .ok []
  | (name, .failed e) :: _ =>
    .error ("could not connect to server '" ++ name ++ "': " ++ e)
  | (_, .connected tools) :: rest =>
    match connectAll rest with
    | .error e => .error e
    | .ok more => .ok (tools ++ more)

/-- How `interactive_chat` ends up after startup: an agent created over the
merged tool registry, or an abort printing the connection diagnostic. -/
inductive SessionStart where
  | started (tools : List String)
  | aborted (diagnostic : String)
deriving DecidableEq, Repr

/-- Embedding of the startup structure of `interactive_chat` in
`2_agent_with_mcp.py`: the `async with MultiServerMCPClient(...)` acquisition
(modelled by `connectAll`) runs inside `try`; on failure the `except` clause
prints the diagnostic and the function returns without ever creating the
agent; on success the agent is created over `client.get_tools()`. -/
def startSession (conns : List (String × ConnResult)) : SessionStart :=
  match connectAll conns with
  | .error e => .aborted ("❌ Failed to connect to MCP servers: " ++ e)
  | .ok tools => .started tools

end McpClient

/-! ## `3_weather_agent_mcp.py` -/

namespace WeatherAgent

/-- The timestamped section `append_to_weather_summary` writes: the three
`f.write` calls of `3_weather_agent_mcp.py`. -/
def summarySection (timestamp report title : String) : String :=
  ("\n" ++ title ++ " - " ++ timestamp ++ "\n") ++ (strRepeat "=" 50 ++ "\n") ++ (report ++ "\n")

/-- Embedding of `append_to_weather_summary` from `3_weather_agent_mcp.py` as
a function on the log file's contents: the file is opened with mode `"a"`
(append), so the new contents are the old contents followed by the section.
The timestamp, produced by `datetime.now()`, is a parameter. -/
def append_to_weather_summary (timestamp : String) (fileContents : String)
    (report : String) (title : String := "MCP Weather Report") : String :=
  fileContents ++ summarySection timestamp report title

end WeatherAgent

/-! ## Concrete environments used to exercise the embeddings -/

/-- An NWS environment in which every request fails (every `make_nws_request`
returns `None`). -/
def emptyNwsEnv : BasicAgent.NwsEnv :=
  ⟨fun _ _ => none, fun _ => none⟩

/-- An HTTP environment in which every request raises a
`requests.exceptions.RequestException`. -/
def failingHttpEnv : WeatherServer.HttpEnv :=
  ⟨fun _ _ => .error "connection timed out",
   fun _ => .error "connection timed out",
   fun _ _ => .error "connection timed out"⟩

/-- An HTTP environment whose active-alerts query succeeds with zero alert
features. -/
def noAlertsEnv : WeatherServer.HttpEnv :=
  ⟨fun _ _ => .error "connection timed out",
   fun _ => .error "connection timed out",
   fun _ _ => .ok ⟨some []⟩⟩

/-! ## Helper lemmas -/

/-- Splitting never yields an empty list of pieces. -/
theorem pySplitOnAux_ne_nil (sep : Char) : ∀ (l acc : List Char), pySplitOnAux sep l acc ≠ []
  | [], _ => by simp [pySplitOnAux]
  | c :: cs, acc => by
    rw [pySplitOnAux]
    split
    · simp
    · exact pySplitOnAux_ne_nil sep cs (c :: acc)

/-- Splitting a list free of the separator yields a single piece. -/
theorem pySplitOnAux_no_sep (sep : Char) :
    ∀ (l acc : List Char), (∀ c ∈ l, c ≠ sep) →
      pySplitOnAux sep l acc = [String.mk (acc.reverse ++ l)]
  | [], acc, _ => by simp [pySplitOnAux]
  | c :: cs, acc, h => by
    rw [pySplitOnAux, if_neg (h c (by simp))]
    rw [pySplitOnAux_no_sep sep cs (c :: acc) (fun x hx => h x (by simp [hx]))]
    simp

/-- The comprehension of `calculate_average` preserves the number of pieces. -/
theorem parseEntries_length :
    ∀ (xs : List String) (l : List Rat), MathServer.parseEntries xs = some l → l.length = xs.length
  | [], l, h => by simpa [MathServer.parseEntries] using congrArg (Option.map List.length) h.symm
  | x :: xs, l, h => by
    rw [MathServer.parseEntries] at h
    cases hv : pyFloat (pyStrip x) with
    | none => rw [hv] at h; exact absurd h (by simp)
    | some v =>
      cases hvs : MathServer.parseEntries xs with
      | none => rw [hv, hvs] at h; exact absurd h (by simp)
      | some vs =>
        rw [hv, hvs] at h
        cases h
        simp [parseEntries_length xs vs hvs]

/-- Stripping an all-whitespace string yields the empty string. -/
theorem pyStrip_of_whitespace (s : String) (h : ∀ c ∈ s.data, c.isWhitespace = true) :
    pyStrip s = "" := by
  unfold pyStrip
  rw [List.dropWhile_eq_nil_iff.mpr h]
  rfl

/-- Two string concatenations whose left parts start with different characters
differ. -/
theorem append_ne_append_of_head (x y : Char) (hxy : x ≠ y) (a b c d : String)
    (ha : a.data.head? = some x) (hc : c.data.head? = some y) : a ++ b ≠ c ++ d := by
  intro h
  have hd : (a ++ b).data = (c ++ d).data := by rw [h]
  rw [String.data_append, String.data_append] at hd
  cases la : a.data with
  | nil => rw [la] at ha; exact absurd ha (by simp)
  | cons u us =>
    cases lc : c.data with
    | nil => rw [lc] at hc; exact absurd hc (by simp)
    | cons v vs =>
      rw [la] at ha hd
      rw [lc] at hc hd
      simp only [List.head?_cons, Option.some.injEq] at ha hc
      simp only [List.cons_append, List.cons.injEq] at hd
      exact hxy (ha ▸ hc ▸ hd.1)

/-! ## Claims -/

/-- Claim C1: for finite numbers `a`, `b` and an operation name that
case-insensitively equals `add`, `subtract`, `multiply` or `divide`, the
`calculate` tool of `1_basic_agent.py` returns a string containing the
mathematically correct result (rendered as the trailing `" = <result>"` of the
returned string); for `divide` with `b = 0` it returns the Failure string
`Error: Cannot divide by zero` instead of raising, and the math server's
`divide` tool returns the same Failure string for every `a`. -/
theorem calculate_and_divide_correct (a b : Rat) (operation : String) :
    (pyLower operation = "add" →
      ∃ p, BasicAgent.calculate a b operation = p ++ " = " ++ pyFloatStr (a + b)) ∧
    (pyLower operation = "subtract" →
      ∃ p, BasicAgent.calculate a b operation = p ++ " = " ++ pyFloatStr (a - b)) ∧
    (pyLower operation = "multiply" →
      ∃ p, BasicAgent.calculate a b operation = p ++ " = " ++ pyFloatStr (a * b)) ∧
    (pyLower operation = "divide" → b ≠ 0 →
      ∃ p, BasicAgent.calculate a b operation = p ++ " = " ++ pyFloatStr (a / b)) ∧
    (pyLower operation = "divide" → b = 0 →
      BasicAgent.calculate a b operation = "Error: Cannot divide by zero") ∧
    MathServer.divide a 0 = .str "Error: Cannot divide by zero" := by
  refine ⟨?_, ?_, ?_, ?_, ?_, ?_⟩
  · intro h
    exact ⟨pyFloatStr a ++ " + " ++ pyFloatStr b, by simp [BasicAgent.calculate, h]⟩
  · intro h
    exact ⟨pyFloatStr a ++ " - " ++ pyFloatStr b, by simp [BasicAgent.calculate, h]⟩
  · intro h
    exact ⟨pyFloatStr a ++ " × " ++ pyFloatStr b, by simp [BasicAgent.calculate, h]⟩
  · intro h hb
    exact ⟨pyFloatStr a ++ " ÷ " ++ pyFloatStr b, by simp [BasicAgent.calculate, h, hb]⟩
  · intro h hb
    simp [BasicAgent.calculate, h, hb]
  · simp [MathServer.divide]

/-- Witness for C1: the `calculate` tool at `a = 1`, `b = 0`, operation
`DIVIDE` (case-insensitive match) returns the divide-by-zero Failure. -/
theorem calculate_and_divide_correct_witness :
    BasicAgent.calculate 1 0 "DIVIDE" = "Error: Cannot divide by zero" :=
  (calculate_and_divide_correct 1 0 "DIVIDE").2.2.2.2.1 (by rfl) (by rfl)

/-- Claim C2 (code bug): `power` in `math_server.py` computes
`base ** exponent` with no `try`/`except`; at `base = 0`, `exponent = -1`
Python raises an uncaught `ZeroDivisionError` to the caller instead of
returning a Failure string, contradicting the contract that every tool
catches all failure conditions internally. -/
theorem power_zero_negative_raises :
    MathServer.power 0 (-1) =
      Except.error "ZeroDivisionError: 0.0 cannot be raised to a negative power" := by
  rfl

/-- Claim C3 counterexample: `get_city_weather` of `1_basic_agent.py` is
case-sensitive, not case-insensitive: `new york` differs from the gazetteer
entry `New York` only in letter case, yet the tool returns the not-found
Failure. -/
theorem basic_city_lookup_case_sensitive_cex :
    pyLower "new york" = pyLower "New York" ∧
    (BasicAgent.US_CITIES.map (fun c => c.1)).contains "New York" = true ∧
    BasicAgent.get_city_weather emptyNwsEnv "new york" =
      "City 'new york' not found. Available cities: New York, Los Angeles, Chicago, Houston, Phoenix, Philadelphia, San Antonio, San Diego, Dallas, Denver" :=
  ⟨by decide, by decide, by decide⟩

/-- Claim C3 (amended): `get_city_weather` of `weather_server.py` matches its
gazetteer case-insensitively (lookup on the lowercased name) and delegates to
the two-stage forecast query on success, while `get_city_weather` of
`1_basic_agent.py` matches case-sensitively; in both tools every unknown name
yields a Failure string listing the full valid set (sorted lowercase keys for
the server, insertion order for the basic agent). -/
theorem city_lookup_behaviour (envW : WeatherServer.HttpEnv) (envB : BasicAgent.NwsEnv)
    (name : String) :
    (∀ c, WeatherServer.cities.find? (fun e => e.1 == pyLower name) = some c →
      WeatherServer.get_city_weather envW name =
        WeatherServer.get_weather_forecast envW c.2.1 c.2.2 (pyTitle name)) ∧
    (WeatherServer.cities.find? (fun e => e.1 == pyLower name) = none →
      WeatherServer.get_city_weather envW name =
        "City '" ++ name ++ "' not found. Available cities: " ++ "atlanta, boston, chicago, dallas, denver, houston, los angeles, miami, new york, philadelphia, phoenix, san antonio, san diego, san francisco, seattle") ∧
    (∀ c, BasicAgent.US_CITIES.find? (fun e => e.1 == name) = some c →
      BasicAgent.get_city_weather envB name =
        BasicAgent.fetchCityForecast envB name c.2.1 c.2.2) ∧
    (BasicAgent.US_CITIES.find? (fun e => e.1 == name) = none →
      BasicAgent.get_city_weather envB name =
        "City '" ++ name ++ "' not found. Available cities: " ++ "New York, Los Angeles, Chicago, Houston, Phoenix, Philadelphia, San Antonio, San Diego, Dallas, Denver") := by
  refine ⟨?_, ?_, ?_, ?_⟩
  · intro c hc
    rw [WeatherServer.get_city_weather, hc]
  · intro hc
    rw [WeatherServer.get_city_weather, hc]
    have hs : String.intercalate ", " (WeatherServer.sortStrings
        (WeatherServer.cities.map (fun c => c.1))) =
        "atlanta, boston, chicago, dallas, denver, houston, los angeles, miami, new york, philadelphia, phoenix, san antonio, san diego, san francisco, seattle" := by
      decide
    rw [hs]
  · intro c hc
    rw [BasicAgent.get_city_weather, hc]
  · intro hc
    rw [BasicAgent.get_city_weather, hc]
    have hs : String.intercalate ", " (BasicAgent.US_CITIES.map (fun c => c.1)) =
        "New York, Los Angeles, Chicago, Houston, Phoenix, Philadelphia, San Antonio, San Diego, Dallas, Denver" := by
      decide
    rw [hs]

/-- Witness for C3: `CHICAGO` (a case variant of the key `chicago`) succeeds
against `weather_server.py`'s gazetteer and delegates to the forecast query,
while the same name misses `1_basic_agent.py`'s case-sensitive gazetteer. -/
theorem city_lookup_behaviour_witness :
    WeatherServer.get_city_weather failingHttpEnv "CHICAGO" =
      WeatherServer.get_weather_forecast failingHttpEnv 41.8781 (-87.6298) (pyTitle "CHICAGO") ∧
    BasicAgent.get_city_weather emptyNwsEnv "CHICAGO" =
      "City 'CHICAGO' not found. Available cities: New York, Los Angeles, Chicago, Houston, Phoenix, Philadelphia, San Antonio, San Diego, Dallas, Denver" :=
  ⟨(city_lookup_behaviour failingHttpEnv emptyNwsEnv "CHICAGO").1
      ("chicago", 41.8781, -87.6298) (by rfl),
   by
    have h := (city_lookup_behaviour failingHttpEnv emptyNwsEnv "CHICAGO").2.2.2 (by rfl)
    rw [h]
    decide⟩

/-- Claim C5: whenever the upstream active-alerts query succeeds with zero
alert features, `get_weather_alerts` of `weather_server.py` returns the
Success string `No active weather alerts for <location>`, which is not of the
tool's Failure form. -/
theorem no_alerts_is_success (env : WeatherServer.HttpEnv) (lat lon : Rat)
    (name : String) (data : AlertsData)
    (hok : env.alerts lat lon = .ok data) (hempty : data.features.getD [] = []) :
    WeatherServer.get_weather_alerts env lat lon name =
      "No active weather alerts for " ++ name ∧
    ∀ e, WeatherServer.get_weather_alerts env lat lon name ≠
      "Error getting weather alerts: " ++ e := by
  have h : WeatherServer.get_weather_alerts env lat lon name =
      "No active weather alerts for " ++ name := by
    rw [WeatherServer.get_weather_alerts, hok]
    simp [hempty]
  refine ⟨h, fun e => ?_⟩
  rw [h]
  exact append_ne_append_of_head 'N' 'E' (by decide)
    "No active weather alerts for " name "Error getting weather alerts: " e
    (by decide) (by decide)

/-- Witness for C5: a concrete environment whose alerts query returns zero
features produces the Success sentinel for Boston. -/
theorem no_alerts_is_success_witness :
    WeatherServer.get_weather_alerts noAlertsEnv 42 (-71) "Boston" =
      "No active weather alerts for Boston" := by
  have h := (no_alerts_is_success noAlertsEnv 42 (-71) "Boston" ⟨some []⟩
    (by rfl) (by rfl)).1
  rw [h]
  decide

/-- Claim C4 counterexample: the `calculate` tool at `a = 25`, `b = 17`,
operation `add` does not return the string `25 + 17 = 42.0`: its arguments
are declared `float`, and Python renders the float `25.0` as `25.0`, never
`25`. -/
theorem calculate_add_25_17_cex :
    BasicAgent.calculate 25 17 "add" ≠ "25 + 17 = 42.0" := by
  have h : BasicAgent.calculate 25 17 "add" =
      pyFloatStr 25 ++ " + " ++ pyFloatStr 17 ++ " = " ++ pyFloatStr ((25 : Rat) + 17) := rfl
  have h42 : (25 : Rat) + 17 = 42 := by norm_num
  rw [h, h42]
  decide

/-- Claim C4 (amended): the `calculate` tool invoked with `a = 25`, `b = 17`
and operation `add` returns exactly the string `25.0 + 17.0 = 42.0`. -/
theorem calculate_add_25_17 :
    BasicAgent.calculate 25 17 "add" = "25.0 + 17.0 = 42.0" := by
  have h : BasicAgent.calculate 25 17 "add" =
      pyFloatStr 25 ++ " + " ++ pyFloatStr 17 ++ " = " ++ pyFloatStr ((25 : Rat) + 17) := rfl
  have h42 : (25 : Rat) + 17 = 42 := by norm_num
  rw [h, h42]
  decide

/-- The number of LLM steps in one turn never exceeds the cap. -/
theorem llmSteps_le_cap (llm : List AgentLoop.Msg → AgentLoop.LlmDecision)
    (registry : AgentLoop.Registry) :
    ∀ (cap : Nat) (conv : List AgentLoop.Msg), AgentLoop.llmSteps llm registry cap conv ≤ cap
  | 0, _ => by simp [AgentLoop.llmSteps]
  | cap + 1, conv => by
    rw [AgentLoop.llmSteps]
    cases llm conv with
    | finalAnswer t =>
      show 1 ≤ cap + 1
      omega
    | toolCalls calls =>
      show 1 + AgentLoop.llmSteps llm registry cap
        (conv ++ calls.map (AgentLoop.execCall registry)) ≤ cap + 1
      have := llmSteps_le_cap llm registry cap (conv ++ calls.map (AgentLoop.execCall registry))
      omega

/-- A policy that always requests tool calls drives the turn to the cap. -/
theorem runTurn_always_tools (llm : List AgentLoop.Msg → AgentLoop.LlmDecision)
    (registry : AgentLoop.Registry)
    (hllm : ∀ c, ∃ calls, llm c = AgentLoop.LlmDecision.toolCalls calls) :
    ∀ (cap : Nat) (conv : List AgentLoop.Msg),
      ∃ conv2, AgentLoop.runTurn llm registry cap conv = AgentLoop.TurnResult.capReached conv2
  | 0, conv => ⟨conv, rfl⟩
  | cap + 1, conv => by
    obtain ⟨calls, hc⟩ := hllm conv
    rw [AgentLoop.runTurn, hc]
    exact runTurn_always_tools llm registry hllm cap _

/-- Claim C6: for every single user turn, the agent loop's tool-calling step
count is bounded by the step cap, and a pathological LLM that requests another
tool call on every step terminates the turn at the cap instead of looping
forever. (The loop lives in the external agent framework and is modelled from
the spec.) -/
theorem agent_loop_step_cap (llm : List AgentLoop.Msg → AgentLoop.LlmDecision)
    (registry : AgentLoop.Registry) (cap : Nat) (conv : List AgentLoop.Msg) :
    AgentLoop.llmSteps llm registry cap conv ≤ cap ∧
    ((∀ c, ∃ calls, llm c = AgentLoop.LlmDecision.toolCalls calls) →
      ∃ conv2, AgentLoop.runTurn llm registry cap conv = AgentLoop.TurnResult.capReached conv2) :=
  ⟨llmSteps_le_cap llm registry cap conv,
   fun hllm => runTurn_always_tools llm registry hllm cap conv⟩

/-- Witness for C6: a concrete policy that always asks for one more tool call
reaches the cap within 3 steps from an empty conversation. -/
theorem agent_loop_step_cap_witness :
    ∃ conv2,
      AgentLoop.runTurn (fun _ => AgentLoop.LlmDecision.toolCalls [⟨"add", []⟩]) [] 3 [] =
        AgentLoop.TurnResult.capReached conv2 :=
  (agent_loop_step_cap (fun _ => AgentLoop.LlmDecision.toolCalls [⟨"add", []⟩]) [] 3 []).2
    (fun _ => ⟨[⟨"add", []⟩], rfl⟩)

/-- Claim C7: in the interactive loop, a fault raised while processing a turn
is caught, reported, and the loop continues; the session terminates exactly
when some event is an interrupt or an exit keyword, and an iteration ends the
session only for those two stimuli — never for a processing fault. -/
theorem interactive_loop_fault_containment (events : List Interactive.TurnEvent)
    (line err : String) :
    (pyStrip line ≠ "" →
      Interactive.EXIT_KEYWORDS.contains (pyLower (pyStrip line)) = false →
      Interactive.stepTurn (.input line (.error err)) =
        ⟨.nextTurn, ["🤖 Agent: ", "❌ Error: " ++ err]⟩) ∧
    (Interactive.runSession events = true ↔
      ∃ e ∈ events, (Interactive.stepTurn e).outcome = .endSession) ∧
    (∀ e, (Interactive.stepTurn e).outcome = .endSession →
      e = .interrupt ∨ ∃ l r, e = .input l r ∧
        Interactive.EXIT_KEYWORDS.contains (pyLower (pyStrip l)) = true) := by
  refine ⟨?_, ?_, ?_⟩
  · intro h1 h2
    simp only [Interactive.stepTurn]
    rw [if_neg (by rw [h2]; exact Bool.false_ne_true), if_neg h1]
  · induction events with
    | nil => simp [Interactive.runSession]
    | cons e rest ih =>
      rw [Interactive.runSession]
      cases h : (Interactive.stepTurn e).outcome with
      | endSession =>
        constructor
        · intro _
          exact ⟨e, List.mem_cons_self e rest, h⟩
        · intro _
          rfl
      | nextTurn =>
        rw [ih]
        constructor
        · rintro ⟨x, hx, hout⟩
          exact ⟨x, List.mem_cons_of_mem e hx, hout⟩
        · rintro ⟨x, hx, hout⟩
          rcases List.mem_cons.mp hx with hx | hx
          · rw [hx] at hout; rw [hout] at h; cases h
          · exact ⟨x, hx, hout⟩
  · intro e he
    match e with
    | .interrupt => exact Or.inl rfl
    | .input l r =>
      refine Or.inr ⟨l, r, rfl, ?_⟩
      by_contra hc
      have hc' : Interactive.EXIT_KEYWORDS.contains (pyLower (pyStrip l)) = false := by
        cases h : Interactive.EXIT_KEYWORDS.contains (pyLower (pyStrip l))
        · rfl
        · exact absurd h hc
      simp only [Interactive.stepTurn] at he
      rw [if_neg (by rw [hc']; exact Bool.false_ne_true)] at he
      by_cases hemp : pyStrip l = ""
      · rw [if_pos hemp] at he
        exact absurd he (by decide)
      · rw [if_neg hemp] at he
        cases r with
        | ok t => exact Interactive.StepOutcome.noConfusion he
        | error t => exact Interactive.StepOutcome.noConfusion he

/-- Witness for C7: a turn whose processing raises is reported and the loop
continues; a session whose only events are failing turns never terminates by
itself, while a `quit` input does terminate it. -/
theorem interactive_loop_fault_containment_witness :
    Interactive.stepTurn (.input "boom" (.error "LLM unavailable")) =
      ⟨.nextTurn, ["🤖 Agent: ", "❌ Error: LLM unavailable"]⟩ :=
  (interactive_loop_fault_containment [] "boom" "LLM unavailable").1 (by decide) (by decide)

/-- Whenever some configured server fails to connect, the merged registry is
an error naming a failing server. -/
theorem connectAll_error_of_failed :
    ∀ (conns : List (String × McpClient.ConnResult)) (name e : String),
      (name, McpClient.ConnResult.failed e) ∈ conns →
      ∃ n2 e2, (n2, McpClient.ConnResult.failed e2) ∈ conns ∧
        McpClient.connectAll conns =
          .error ("could not connect to server '" ++ n2 ++ "': " ++ e2)
  | [], _, _, h => absurd h (by simp)
  | (n, McpClient.ConnResult.failed e') :: rest, name, e, _ =>
    ⟨n, e', by simp, by rw [McpClient.connectAll]⟩
  | (n, McpClient.ConnResult.connected tools) :: rest, name, e, h => by
    have hmem : (name, McpClient.ConnResult.failed e) ∈ rest := by
      rcases List.mem_cons.mp h with h1 | h1
      · cases h1
      · exact h1
    obtain ⟨n2, e2, hm2, herr⟩ := connectAll_error_of_failed rest name e hmem
    exact ⟨n2, e2, List.mem_cons_of_mem _ hm2, by rw [McpClient.connectAll, herr]⟩

/-- Claim C8: when any configured server's connection fails at startup, the
whole session aborts with a diagnostic naming an unreachable server and the
agent is never created over a partial registry. (The per-server connection
semantics live in the external MCP client and are modelled from the spec.) -/
theorem mcp_startup_abort (conns : List (String × McpClient.ConnResult)) (name e : String)
    (hfail : (name, McpClient.ConnResult.failed e) ∈ conns) :
    (∃ n2 e2, (n2, McpClient.ConnResult.failed e2) ∈ conns ∧
      McpClient.startSession conns = .aborted
        ("❌ Failed to connect to MCP servers: " ++
          ("could not connect to server '" ++ n2 ++ "': " ++ e2))) ∧
    ∀ tools, McpClient.startSession conns ≠ .started tools := by
  obtain ⟨n2, e2, hm2, herr⟩ := connectAll_error_of_failed conns name e hfail
  refine ⟨⟨n2, e2, hm2, ?_⟩, fun tools hstart => ?_⟩
  · rw [McpClient.startSession, herr]
  · rw [McpClient.startSession, herr] at hstart
    cases hstart

/-- Witness for C8: a two-server configuration whose weather server is
unreachable never yields a started session. -/
theorem mcp_startup_abort_witness :
    McpClient.startSession
      [("math", .connected ["add", "divide"]), ("weather", .failed "connection refused")] ≠
      .started ["add", "divide"] :=
  (mcp_startup_abort
    [("math", .connected ["add", "divide"]), ("weather", .failed "connection refused")]
    "weather" "connection refused" (by simp)).2 ["add", "divide"]

/-- Claim C9: writing a weather report to the log appends the timestamped
section at the end of the file: every byte of the prior contents is unchanged
in place, and the bytes after them are exactly the new section — the log is
never truncated or rewritten. -/
theorem append_log_preserves_prior (timestamp fileContents report title : String) :
    (WeatherAgent.append_to_weather_summary timestamp fileContents report title).data.take
        fileContents.data.length = fileContents.data ∧
    (WeatherAgent.append_to_weather_summary timestamp fileContents report title).data.drop
        fileContents.data.length =
      (WeatherAgent.summarySection timestamp report title).data := by
  rw [WeatherAgent.append_to_weather_summary, String.data_append]
  exact ⟨List.take_left _ _, List.drop_left _ _⟩

/-- Claim C10: `calculate_average` never returns `Error: No numbers provided`
(splitting yields at least one piece, so the empty-list branch is
unreachable); an all-whitespace (in particular empty) input yields the
invalid-format Failure; and whenever every comma-separated piece parses, the
result is the arithmetic mean of the parsed numbers. -/
theorem calculate_average_branches (s : String) :
    MathServer.calculate_average s ≠ .str "Error: No numbers provided" ∧
    ((∀ c ∈ s.data, c.isWhitespace = true) →
      MathServer.calculate_average s =
        .str "Error: Invalid number format. Use comma-separated numbers like '1,2,3,4'") ∧
    (∀ l, MathServer.parseEntries (pySplitOn ',' s) = some l →
      l ≠ [] ∧ MathServer.calculate_average s = .num (l.sum / (l.length : Rat))) := by
  have hsplit_ne : pySplitOn ',' s ≠ [] := pySplitOnAux_ne_nil ',' s.data []
  have hmain : ∀ l, MathServer.parseEntries (pySplitOn ',' s) = some l →
      l ≠ [] ∧ MathServer.calculate_average s = .num (l.sum / (l.length : Rat)) := by
    intro l hl
    have hlen := parseEntries_length _ _ hl
    have hne : l ≠ [] := by
      intro hnil
      rw [hnil] at hlen
      exact hsplit_ne (List.eq_nil_of_length_eq_zero hlen.symm)
    refine ⟨hne, ?_⟩
    rw [MathServer.calculate_average, hl]
    simp [List.isEmpty_iff, hne]
  refine ⟨?_, ?_, hmain⟩
  · cases hl : MathServer.parseEntries (pySplitOn ',' s) with
    | none =>
      rw [MathServer.calculate_average, hl]
      simp
    | some l =>
      rw [(hmain l hl).2]
      simp
  · intro hws
    have hnosep : ∀ c ∈ s.data, c ≠ ',' := by
      intro c hc hcomma
      have := hws c hc
      rw [hcomma] at this
      exact absurd this (by decide)
    have hone : pySplitOn ',' s = [s] := by
      rw [pySplitOn, pySplitOnAux_no_sep ',' s.data [] hnosep]
      rfl
    have hstrip : pyStrip s = "" := pyStrip_of_whitespace s hws
    rw [MathServer.calculate_average, hone, MathServer.parseEntries, hstrip]
    rfl

/-- Witness for C10: the all-whitespace input `"  "` yields the
invalid-format Failure, and `"1, 2, 3"` yields the mean `2.0`. -/
theorem calculate_average_branches_witness :
    MathServer.calculate_average "  " =
      .str "Error: Invalid number format. Use comma-separated numbers like '1,2,3,4'" ∧
    MathServer.calculate_average "1, 2, 3" = .num 2 := by
  constructor
  · exact (calculate_average_branches "  ").2.1 (by decide)
  · have h := ((calculate_average_branches "1, 2, 3").2.2
      [((1 : Nat) : Rat), ((2 : Nat) : Rat), ((3 : Nat) : Rat)] (by rfl)).2
    rw [h]
    congr 1
    push_cast
    norm_num
